import Mathlib

/-!
Verification of the pyFIS client
(klimaatbestendige_netwerken/pyFIS.py): a paginated HTTP-to-dataframe
fetcher with in-memory caching by attribute name, geometry
normalisation, inferred-key joins and a bulk export facility.

The embedding below models the Python module shallowly:
* JSON response bodies are association lists of string keys;
* the network is an oracle mapping (url path components, offset) to an
  optional body, where `none` stands for a non-success HTTP status
  (the `assert response` on line 115 of pyFIS.py fails);
* the `while True` pagination loop of `_parse_request` becomes a
  fuel-indexed recursion that also returns the list of issued page
  requests (path components and offset of each HTTP GET);
* the client object's attribute dictionary (instance and class
  attributes, including bound methods) becomes an association list,
  so that `hasattr`/`getattr`/`setattr` caching is modelled exactly;
* `export` is modelled as a function from a filesystem (path to
  contents map) to a new filesystem together with a trace of effect
  events; an exception object that the source constructs but never
  raises (lines 241 and 268 lack a `raise`) appears in the trace as a
  `constructExc` event while control falls through, as in the source.
-/

namespace PyFIS

/-- A scalar cell value as it appears in records: JSON strings and
integers, plus the geometry values produced by the geometry pipeline:
`geom w` is a shapely geometry parsed by `wkt.loads` from the WKT text
`w`; `geomProj src tgt w` is that geometry reprojected from coordinate
system `src` to `tgt` (what `GeoDataFrame.to_crs` produces). -/
inductive Cell where
  | str (s : String)
  | int (n : Int)
  | geom (wkt : String)
  | geomProj (src tgt : String) (wkt : String)
deriving DecidableEq

/-- One record (a JSON object of scalar fields), as an ordered
association list. -/
abbrev Rec := List (String × Cell)

/-- A value of a decoded JSON body: either a scalar cell or an array
of records (the value of a `Result` key). -/
inductive BVal where
  | cell (c : Cell)
  | recs (rs : List Rec)
deriving DecidableEq

/-- A decoded JSON response body (`response.json()`), an ordered
association list of keys. -/
abbrev Body := List (String × BVal)

/-- The network oracle: maps the url path components and the `offset`
query parameter of a page request to the decoded body, or `none` for a
non-success HTTP status (the `assert response` of line 115 fails). -/
abbrev Oracle := List String → Nat → Option Body

/-- `response_dict[k]` when an integer is required
(`Offset`, `Count`, `TotalCount`). -/
def getIntKey (b : Body) (k : String) : Option Int :=
  match List.lookup k b with
  | some (.cell (.int n)) => some n
  | _ => none

/-- `GeoDataFrame([response_dict])`: the single-object body becomes a
one-record table; only scalar fields can occur in such a body. -/
def bodyToRec (b : Body) : Option Rec :=
  b.mapM (fun kv => match kv.2 with
    | .cell c => some (kv.1, c)
    | .recs _ => none)

/-- The in-memory table built from accumulated records, with the
frame-level coordinate reference system attribute (`result.crs`). -/
structure GeoDF where
  rows : List Rec
  crs : Option String
deriving DecidableEq

/-- The column names of a frame (the union of the record keys, in
first-appearance order), what `'Geometry' in result` and
`df.columns` inspect. -/
def GeoDF.cols (df : GeoDF) : List String :=
  ((df.rows.map (fun r => r.map Prod.fst)).flatten).dedup

/-- The value `_parse_request` returns: either a `GeoDataFrame`
(multi-page listing, or single object with geometry) or the raw
decoded dict (opaque single-page payload). -/
inductive PResult where
  | frame (df : GeoDF)
  | rawDict (b : Body)
deriving DecidableEq

/-- Configuration attributes of the client read inside
`_parse_request`: `self.count` (page size, class default 500),
`self.service_coordinate_system` and
`self.export_coordinate_system`. -/
structure Config where
  count : Nat
  service_coordinate_system : String
  export_coordinate_system : Option String
deriving DecidableEq

/-- `wkt.loads` succeeds exactly on well-formed WKT text; the model
recognises the geometry type keyword. -/
def wktValid (s : String) : Bool :=
  ["POINT", "LINESTRING", "POLYGON", "MULTIPOINT", "MULTILINESTRING",
   "MULTIPOLYGON", "GEOMETRYCOLLECTION"].any (fun p => p.data.isPrefixOf s.data)

/-- `wkt.loads` applied to one cell: parses a WKT string into a
geometry, raises (`none`) on anything else. -/
def wktLoads : Cell → Option Cell
  | .str s => if wktValid s then some (.geom s) else none
  | _ => none

/-- Renaming of line 145: `Geometry` column to `geometry`, applied to
one record. -/
def renameGeometry (r : Rec) : Rec :=
  r.map (fun kv => if kv.1 = "Geometry" then ("geometry", kv.2) else kv)

/-- `result['geometry'].apply(wkt.loads)` followed by the column
assignment: all-or-nothing over the rows (a raising `apply` leaves the
column unassigned). -/
def parseGeometryCol (rows : List Rec) : Option (List Rec) :=
  rows.mapM (fun r =>
    match List.lookup "geometry" r with
    | some c => (wktLoads c).map (fun g =>
        r.map (fun kv => if kv.1 = "geometry" then ("geometry", g) else kv))
    | none => none)

/-- Reprojection of one cell from `src` to `tgt`, as performed by
`GeoDataFrame.to_crs`. -/
def reprojectCell (src tgt : String) : Cell → Cell
  | .geom w => .geomProj src tgt w
  | c => c

/-- `df.to_crs(tgt)`: returns a NEW frame with every geometry value
reprojected and the crs attribute set; the receiver is unchanged. -/
def GeoDF.to_crs (df : GeoDF) (tgt : String) : GeoDF :=
  { rows := df.rows.map (fun r => r.map (fun kv =>
      if kv.1 = "geometry" then (kv.1, reprojectCell (df.crs.getD "") tgt kv.2) else kv)),
    crs := some tgt }

/-- Lines 143-152 of pyFIS.py: the `if 'Geometry' in result:` block.
Renames the column, parses WKT, and — faithfully to the source — calls
`to_crs` WITHOUT assigning its result (line 150 of the source discards
the returned frame), so the returned rows keep the service coordinate
system. A parse failure is caught (warning logged) and the renamed
frame with raw values is returned. -/
def postProcess (cfg : Config) (df : GeoDF) : GeoDF :=
  if df.cols.contains "Geometry" then
    let df1 : GeoDF := { df with rows := df.rows.map renameGeometry }
    match parseGeometryCol df1.rows with
    | some newRows =>
      let df2 : GeoDF := { df1 with rows := newRows }
      match cfg.export_coordinate_system with
      | some tgt =>
        let df3 : GeoDF := { df2 with crs := some cfg.service_coordinate_system }
        let _ := df3.to_crs tgt
        df3
      | none => df2
    | none => df1
  else df

/-- The `while True` request loop of `_parse_request` (lines 107-139),
with `fuel` bounding the number of iterations (the source loop has no
bound of its own). Returns the outcome together with the list of page
requests issued, each as (path components, offset). Errors: a `none`
oracle answer is the failed `assert` of line 115; missing or mistyped
pagination keys are the KeyError/TypeError the Python would raise. -/
def requestLoop (oracle : Oracle) (cfg : Config) (comps : List String) :
    Nat → Nat → List Rec → Except String PResult × List (List String × Nat)
  | 0, _, _ => (.error "out of fuel", [])
  | fuel + 1, offset, acc =>
    match oracle comps offset with
    | none => (.error "AssertionError: An error has occured", [(comps, offset)])
    | some body =>
      match List.lookup "Result" body with
      | some (.recs rs) =>
        match getIntKey body "Offset", getIntKey body "Count", getIntKey body "TotalCount" with
        | some o, some c, some t =>
          if o + c < t then
            let r := requestLoop oracle cfg comps fuel (offset + cfg.count) (acc ++ rs)
            (r.1, (comps, offset) :: r.2)
          else
            (.ok (.frame { rows := acc ++ rs, crs := none }), [(comps, offset)])
        | _, _, _ => (.error "KeyError", [(comps, offset)])
      | some (.cell _) => (.error "TypeError", [(comps, offset)])
      | none =>
        match List.lookup "Geometry" body with
        | some _ =>
          match bodyToRec body with
          | some r => (.ok (.frame { rows := [r], crs := none }), [(comps, offset)])
          | none => (.error "TypeError", [(comps, offset)])
        | none => (.ok (.rawDict body), [(comps, offset)])

/-- `pyFIS._parse_request(components)` (lines 95-153): the request
loop from offset 0 followed by the geometry post-processing. Returns
the result and the full list of issued page requests. -/
def parse_request (oracle : Oracle) (cfg : Config) (comps : List String) (fuel : Nat) :
    Except String PResult × List (List String × Nat) :=
  match requestLoop oracle cfg comps fuel 0 [] with
  | (.error e, log) => (.error e, log)
  | (.ok (.frame df), log) => (.ok (.frame (postProcess cfg df)), log)
  | (.ok (.rawDict b), log) =>
    if (List.lookup "Geometry" b).isSome then (.error "AttributeError", log)
    else (.ok (.rawDict b), log)

/-- A Python attribute value on the client object: the scalar
configuration attributes set in `__init__`, the class attribute
`count`, bound methods, `None`, and cached `_parse_request` results
stored by `list_objects` via `setattr`. -/
inductive PyVal where
  | natV (n : Nat)
  | strV (s : String)
  | noneV
  | method (name : String)
  | res (p : PResult)
deriving DecidableEq

/-- The client object's attribute dictionary (instance attributes
shadow class attributes; earlier entries shadow later ones). -/
structure ClientState where
  attrs : List (String × PyVal)
deriving DecidableEq

/-- `hasattr(self, name)` (line 56). -/
def hasattrB (s : ClientState) (name : String) : Bool :=
  (List.lookup name s.attrs).isSome

/-- `getattr(self, name)` (line 57). -/
def getattrV (s : ClientState) (name : String) : Option PyVal :=
  List.lookup name s.attrs

/-- `setattr(self, name, v)` (line 62): the new binding shadows any
older one. -/
def setattrV (s : ClientState) (name : String) (v : PyVal) : ClientState :=
  ⟨(name, v) :: s.attrs⟩

/-- The method names of class `pyFIS` (class attributes, visible to
`hasattr`). -/
def methodNames : List String :=
  ["__init__", "list_geotypes", "list_relations", "list_objects",
   "list_all_objects", "get_object", "get_object_subobjects",
   "_parse_request", "find_object_by_value", "find_object_by_polygon",
   "find_closest_object", "merge_geotypes", "export"]

/-- The attribute dictionary of a freshly constructed client: the
instance attributes set by `__init__` (lines 28-37), then the class
attributes (`count = 500`, line 25, and the methods). -/
def initAttrs (url gen pubdate : String) : List (String × PyVal) :=
  [("baseurl", .strV url), ("geogeneration", .strV gen),
   ("publication_date", .strV pubdate),
   ("service_coordinate_system", .strV "epsg:4326"),
   ("export_coordinate_system", .noneV),
   ("count", .natV 500)]
  ++ methodNames.map (fun m => (m, .method m))

/-- A freshly constructed client against the default service, having
discovered generation "13". -/
def initState : ClientState :=
  ⟨initAttrs "https://www.vaarweginformatie.nl/wfswms/dataservice/1.3" "13" "2019-09-24"⟩

/-- `self.geogeneration`, read when building request paths. -/
def getGeneration (s : ClientState) : String :=
  match List.lookup "geogeneration" s.attrs with
  | some (.strV g) => g
  | _ => ""

instance exceptDecEq {α β : Type} [DecidableEq α] [DecidableEq β] :
    DecidableEq (Except α β) := fun a b =>
  match a, b with
  | .error x, .error y =>
    if h : x = y then isTrue (by rw [h]) else isFalse (by simp [h])
  | .ok x, .ok y =>
    if h : x = y then isTrue (by rw [h]) else isFalse (by simp [h])
  | .error _, .ok _ => isFalse (by simp)
  | .ok _, .error _ => isFalse (by simp)

/-- The outcome of a `list_objects` call: the returned value (or the
propagated exception), the client state after the call, and the page
requests the call issued. -/
structure CallRes where
  res : Except String PyVal
  state : ClientState
  log : List (List String × Nat)
deriving DecidableEq

/-- `pyFIS.list_objects(geotype)` (lines 50-64): return the attribute
of that name if the object has one (the memory cache — or any
pre-existing attribute), otherwise fetch
`{geogeneration}/{geotype}` through `_parse_request`, store the result
via `setattr` and return it. On an exception the state is unchanged
(the `setattr` of line 62 is never reached). -/
def list_objects (oracle : Oracle) (cfg : Config) (s : ClientState)
    (geotype : String) (fuel : Nat) : CallRes :=
  if hasattrB s geotype then
    { res := .ok ((getattrV s geotype).getD .noneV), state := s, log := [] }
  else
    match parse_request oracle cfg [getGeneration s, geotype] fuel with
    | (.error e, log) => { res := .error e, state := s, log := log }
    | (.ok pr, log) =>
      { res := .ok (.res pr), state := setattrV s geotype (.res pr), log := log }

/-- `pyFIS.get_object(geotype, objectid)` (lines 73-82): coerce the id
to a string and issue `_parse_request` on
`{geogeneration}/{geotype}/{objectid}`. No caching. -/
def get_object (oracle : Oracle) (cfg : Config) (s : ClientState)
    (geotype : String) (objectid : Int) (fuel : Nat) :
    Except String PResult × List (List String × Nat) :=
  parse_request oracle cfg [getGeneration s, geotype, toString objectid] fuel

/-- `pyFIS.get_object_subobjects(geotype, objectid, geotype2)`
(lines 84-93): one `_parse_request` on
`{geogeneration}/{geotype}/{objectid}/{geotype2}`. -/
def get_object_subobjects (oracle : Oracle) (cfg : Config) (s : ClientState)
    (geotype : String) (objectid : Int) (geotype2 : String) (fuel : Nat) :
    Except String PResult × List (List String × Nat) :=
  parse_request oracle cfg [getGeneration s, geotype, toString objectid, geotype2] fuel

/-- The multi-column join key of one row: `None` when a key column is
missing from the row (a missing key never matches, as in pandas). -/
def rowKey (ks : List String) (r : Rec) : Option (List Cell) :=
  ks.mapM (fun k => List.lookup k r)

/-- Column renaming applied by `DataFrame.merge` to one side: a name
that also occurs among the other side's columns receives that side's
suffix. -/
def suffixName (otherCols : List String) (sfx : String) (c : String) : String :=
  if otherCols.contains c then c ++ sfx else c

/-- `suffixName` applied to every field of a record. -/
def renameRow (otherCols : List String) (sfx : String) (r : Rec) : Rec :=
  r.map (fun kv => (suffixName otherCols sfx kv.1, kv.2))

/-- `df_l.merge(df_r, left_on, right_on, suffixes=(sl, sr))`: the
pandas inner join. Each pair of rows whose key tuples are both present
and equal contributes one output row: the left row with overlapping
names suffixed by `sl`, then the right row with overlapping names
suffixed by `sr`. -/
def pdMerge (dfL dfR : GeoDF) (leftOn rightOn : List String)
    (sl sr : String) : GeoDF :=
  { rows := dfL.rows.flatMap (fun rl =>
      dfR.rows.filterMap (fun rr =>
        match rowKey leftOn rl, rowKey rightOn rr with
        | some kl, some kr =>
          if kl = kr then
            some (renameRow dfR.cols sl rl ++ renameRow dfL.cols sr rr)
          else none
        | _, _ => none)),
    crs := dfL.crs }

/-- Python truthiness of the `left_on` / `right_on` arguments
(line 211): `None` and the empty list are falsy. -/
def falsyKeys : Option (List String) → Bool
  | none => true
  | some l => l.isEmpty

/-- `pyFIS.merge_geotypes(left_geotype, right_geotype, left_on,
right_on)` (lines 198-220), modelled over the two frames the source
obtains from `self.list_objects` (lines 207-208): if either key
argument is falsy, infer both — `(GeoType, Id)` against
`(ParentGeoType, ParentId)` when the right frame has a
`ParentGeoType` column, else `(Id)` against `(ParentId)` — then inner
join with suffixes `('', '_' + right_geotype)`. -/
def merge_geotypes (df_l df_r : GeoDF) (right_geotype : String)
    (left_on right_on : Option (List String)) : GeoDF :=
  let keys : List String × List String :=
    if falsyKeys left_on || falsyKeys right_on then
      if df_r.cols.contains "ParentGeoType" then
        (["GeoType", "Id"], ["ParentGeoType", "ParentId"])
      else
        (["Id"], ["ParentId"])
    else
      (left_on.getD [], right_on.getD [])
  pdMerge df_l df_r keys.1 keys.2 "" ("_" ++ right_geotype)

/-- A destination path, as `pathlib.Path` decomposes it: `stem` and
extension (`suffix` without the dot). -/
structure FPath where
  stem : String
  ext : String
deriving DecidableEq

/-- The full path string. -/
def FPath.full (p : FPath) : String := p.stem ++ "." ++ p.ext

/-- The path of the per-geotype delimited file written by the csv
branch (line 264): `{stem}_{geotype}.csv`. -/
def csvPath (p : FPath) (g : String) : String := p.stem ++ "_" ++ g ++ ".csv"

/-- The filesystem: a map from path to file contents. -/
abbrev FS := List (String × String)

/-- `filepath.exists()`. -/
def fsExists (fs : FS) (p : String) : Bool := (List.lookup p fs).isSome

/-- `filepath.unlink()`. -/
def fsUnlink (fs : FS) (p : String) : FS := fs.filter (fun kv => kv.1 ≠ p)

/-- Writing a file (creating or overwriting). -/
def fsWrite (fs : FS) (p c : String) : FS := (p, c) :: fsUnlink fs p

/-- An observable effect of `pyFIS.export`. `constructExc` records an
exception object that the source constructs but never raises (lines
241 and 268 lack a `raise` statement), after which control falls
straight through. -/
inductive Event where
  | constructExc (name : String)
  | unlink (path : String)
  | fetchGeotypes
  | loadObjects (geotype : String)
  | writeSheet (geotype : String)
  | saveExcel (path : String)
  | writeCsv (path : String)
  | logErr (msg : String)
deriving DecidableEq

/-- Lines 236-237: `if not filetype: filetype = filepath.suffix[1:]`
(`None` and the empty string are falsy). -/
def resolveFiletype (p : FPath) : Option String → String
  | none => p.ext
  | some t => if t = "" then p.ext else t

/-- Lines 239-243, effect on the filesystem: under `force` an existing
destination is unlinked; without `force` a `FileExistsError` is
constructed but NOT raised, so the filesystem is untouched and control
continues. -/
def prePhaseFS (fs : FS) (p : String) (force : Bool) : FS :=
  if fsExists fs p then (if force then fsUnlink fs p else fs) else fs

/-- Lines 239-243, emitted events. -/
def prePhaseEvents (fs : FS) (p : String) (force : Bool) : List Event :=
  if fsExists fs p then
    (if force then [Event.unlink p] else [Event.constructExc "FileExistsError"])
  else []

/-- Lines 245-246: the geotypes to export (`self.list_geotypes()` when
not supplied; `catalog` is what that network call returns). -/
def geotypeList (catalog : List String) : Option (List String) → List String
  | none => catalog
  | some l => l

/-- Lines 245-246, emitted events. -/
def geotypeEvents : Option (List String) → List Event
  | none => [Event.fetchGeotypes]
  | some _ => []

/-- The workbook contents written by the excel branch: one sheet per
geotype, sheet names truncated to 31 characters (line 256); `data g`
is the serialised collection of geotype `g`. -/
def excelContents (geotypes : List String) (data : String → String) : String :=
  String.intercalate ";" (geotypes.map (fun g => g.take 31 ++ "=" ++ data g))

/-- `pyFIS.export(filepath, filetype, force, geotypes)`
(lines 222-268): resolve the filetype, handle an existing destination,
resolve the geotype list, then write one excel workbook
(`xlsx`/`xls`), one csv file per geotype (`csv`), or — for any other
filetype — log an error, construct (but not raise) a
`NotImplementedError` and return normally having written nothing.
Returns the final filesystem and the trace of effects in program
order. -/
def exportAll (catalog : List String) (data : String → String) (p : FPath)
    (filetype : Option String) (force : Bool) (geotypes : Option (List String))
    (fs : FS) : FS × List Event :=
  let ft := resolveFiletype p filetype
  let fs1 := prePhaseFS fs p.full force
  let ev1 := prePhaseEvents fs p.full force
  let gl := geotypeList catalog geotypes
  let ev2 := geotypeEvents geotypes
  if ft = "xlsx" ∨ ft = "xls" then
    (fsWrite fs1 p.full (excelContents gl data),
     ev1 ++ ev2
       ++ gl.flatMap (fun g => [Event.loadObjects g, Event.writeSheet g])
       ++ [Event.saveExcel p.full])
  else if ft = "csv" then
    (gl.foldl (fun a g => fsWrite a (csvPath p g) (data g)) fs1,
     ev1 ++ ev2
       ++ gl.flatMap (fun g => [Event.loadObjects g, Event.writeCsv (csvPath p g)]))
  else
    (fs1,
     ev1 ++ ev2
       ++ [Event.logErr ("Unrecognised filetype: " ++ ft),
           Event.constructExc "NotImplementedError"])

/-- Whether an event writes file contents (a sheet write buffers into
the workbook; `saveExcel` and `writeCsv` are the events that put bytes
on disk). -/
def isWriteEvent : Event → Bool
  | .saveExcel _ => true
  | .writeCsv _ => true
  | _ => false

/-! ## Concrete fixtures used by the scenario theorems and witnesses -/

/-- The default configuration: page size 500 (class attribute `count`),
service crs `epsg:4326`, no export crs. -/
def cfg500 : Config := ⟨500, "epsg:4326", none⟩

/-- A minimal record. -/
def recA : Rec := [("Id", Cell.int 1)]

/-- Page 1 of the two-page scenario: records 0-499 of 650. -/
def body650a : Body :=
  [("Result", BVal.recs (List.replicate 500 recA)),
   ("Offset", .cell (.int 0)), ("Count", .cell (.int 500)),
   ("TotalCount", .cell (.int 650))]

/-- Page 2 of the two-page scenario: records 500-649 of 650. -/
def body650b : Body :=
  [("Result", BVal.recs (List.replicate 150 recA)),
   ("Offset", .cell (.int 500)), ("Count", .cell (.int 150)),
   ("TotalCount", .cell (.int 650))]

/-- The server of the two-page scenario: 650 records served 500 per
page. -/
def scenOracle : Oracle := fun _ offset =>
  if offset = 0 then some body650a
  else if offset = 500 then some body650b
  else none

/-! ## Helper lemmas -/

/-- The page-request log of `parse_request` is the log of its request
loop (post-processing issues no requests). -/
lemma parse_request_log (oracle : Oracle) (cfg : Config) (comps : List String)
    (fuel : Nat) :
    (parse_request oracle cfg comps fuel).2 = (requestLoop oracle cfg comps fuel 0 []).2 := by
  unfold parse_request
  rcases hr : requestLoop oracle cfg comps fuel 0 [] with ⟨r1, r2⟩
  cases r1 with
  | error e => rfl
  | ok pr =>
    cases pr with
    | frame df => rfl
    | rawDict b =>
      by_cases h : (List.lookup "Geometry" b).isSome <;> simp [h]

/-- With fuel available, the first page request of the loop is at the
current offset against the given path. -/
lemma requestLoop_head (oracle : Oracle) (cfg : Config) (comps : List String)
    (fuel offset : Nat) (acc : List Rec) :
    (requestLoop oracle cfg comps (fuel + 1) offset acc).2.head? = some (comps, offset) := by
  simp only [requestLoop]
  repeat' split
  all_goals rfl

/-! ## Claim theorems -/

set_option maxRecDepth 10000 in
/-- C2: Pagination requests pages at offsets increasing by the page
size, continuing exactly while the returned page satisfies
`Offset + Count < TotalCount` (first conjunct: on such a page the loop
issues the request and recurses at `offset + count`; on a final page it
stops with no further request). The first request of any fetch is at
offset 0 (second conjunct). In the concrete two-page scenario — page 1
returns records 0-499 of 650, page 2 returns records 500-649 — exactly
the two requests at offsets 0 and 500 are issued and the resulting
collection has 650 records (third conjunct). -/
theorem C2_pagination_and_two_page_scenario :
    (∀ (oracle : Oracle) (cfg : Config) (comps : List String) (fuel offset : Nat)
        (acc : List Rec) (body : Body) (rs : List Rec) (o c t : Int),
        oracle comps offset = some body →
        List.lookup "Result" body = some (.recs rs) →
        getIntKey body "Offset" = some o →
        getIntKey body "Count" = some c →
        getIntKey body "TotalCount" = some t →
        (o + c < t →
          requestLoop oracle cfg comps (fuel + 1) offset acc =
            ((requestLoop oracle cfg comps fuel (offset + cfg.count) (acc ++ rs)).1,
             (comps, offset) :: (requestLoop oracle cfg comps fuel (offset + cfg.count) (acc ++ rs)).2)) ∧
        (¬ o + c < t →
          requestLoop oracle cfg comps (fuel + 1) offset acc =
            (.ok (.frame { rows := acc ++ rs, crs := none }), [(comps, offset)]))) ∧
    (∀ (oracle : Oracle) (cfg : Config) (comps : List String) (fuel : Nat),
        (parse_request oracle cfg comps (fuel + 1)).2.head? = some (comps, 0)) ∧
    ((parse_request scenOracle cfg500 ["13", "bridge"] 3).2 =
        [(["13", "bridge"], 0), (["13", "bridge"], 500)] ∧
     ∃ df, (parse_request scenOracle cfg500 ["13", "bridge"] 3).1 = .ok (.frame df) ∧
        df.rows.length = 650) := by
  refine ⟨?_, ?_, ?_, ?_⟩
  · intro oracle cfg comps fuel offset acc body rs o c t h1 h2 h3 h4 h5
    constructor
    · intro hlt
      simp only [requestLoop, h1, h2, h3, h4, h5, if_pos hlt]
    · intro hge
      simp only [requestLoop, h1, h2, h3, h4, h5, if_neg hge]
  · intro oracle cfg comps fuel
    rw [parse_request_log]
    exact requestLoop_head oracle cfg comps fuel 0 []
  · rfl
  · refine ⟨{ rows := List.replicate 500 recA ++ List.replicate 150 recA, crs := none }, rfl, ?_⟩
    simp

set_option maxRecDepth 10000 in
/-- Witness for C2: on page 1 of the scenario (Offset 0 + Count 500 <
TotalCount 650) the loop issues the request at offset 0 and continues
at offset 500; and the scenario fetch's first request is at offset
0. -/
theorem C2_pagination_witness :
    requestLoop scenOracle cfg500 ["13", "bridge"] 3 0 [] =
      ((requestLoop scenOracle cfg500 ["13", "bridge"] 2 500 (List.replicate 500 recA)).1,
       (["13", "bridge"], 0) ::
         (requestLoop scenOracle cfg500 ["13", "bridge"] 2 500 (List.replicate 500 recA)).2) ∧
    (parse_request scenOracle cfg500 ["13", "bridge"] 3).2.head? =
      some (["13", "bridge"], 0) := by
  constructor
  · have h := (C2_pagination_and_two_page_scenario.1 scenOracle cfg500 ["13", "bridge"] 2 0 []
      body650a (List.replicate 500 recA) 0 500 650 rfl rfl rfl rfl rfl).1 (by norm_num)
    simpa [cfg500] using h
  · exact C2_pagination_and_two_page_scenario.2.1 scenOracle cfg500 ["13", "bridge"] 2

/-- C4: after a successful `list_objects(geotype)` call, a second call
for the same geotype returns the identical cached value, leaves the
client state unchanged and issues zero page requests (the cache hit of
lines 56-57). -/
theorem C4_list_objects_second_call_cached
    (oracle : Oracle) (cfg : Config) (s : ClientState) (geotype : String)
    (fuel : Nat) (v : PyVal)
    (h : (list_objects oracle cfg s geotype fuel).res = .ok v) :
    ∀ (oracle2 : Oracle) (fuel2 : Nat),
      list_objects oracle2 cfg (list_objects oracle cfg s geotype fuel).state geotype fuel2 =
        { res := .ok v, state := (list_objects oracle cfg s geotype fuel).state, log := [] } := by
  intro oracle2 fuel2
  by_cases hc : hasattrB s geotype
  · have h1 : list_objects oracle cfg s geotype fuel =
        { res := Except.ok ((getattrV s geotype).getD PyVal.noneV), state := s,
          log := [] } := by
      simp [list_objects, hc]
    rw [h1] at h ⊢
    simp only [Except.ok.injEq] at h
    simp [list_objects, hc, h]
  · rcases hp : parse_request oracle cfg [getGeneration s, geotype] fuel with ⟨r1, log⟩
    have h1 : list_objects oracle cfg s geotype fuel =
        match parse_request oracle cfg [getGeneration s, geotype] fuel with
        | (.error e, l) => { res := .error e, state := s, log := l }
        | (.ok pr, l) =>
          { res := .ok (.res pr), state := setattrV s geotype (.res pr), log := l } := by
      simp [list_objects, hc]
    rw [hp] at h1
    cases r1 with
    | error e =>
      rw [h1] at h
      simp at h
    | ok pr =>
      rw [h1] at h ⊢
      simp only [Except.ok.injEq] at h
      subst h
      have hc2 : hasattrB (setattrV s geotype (PyVal.res pr)) geotype = true := by
        simp [hasattrB, setattrV, List.lookup]
      have hg : getattrV (setattrV s geotype (PyVal.res pr)) geotype =
          some (PyVal.res pr) := by
        simp [getattrV, setattrV, List.lookup]
      simp [list_objects, hc2, hg]

/-- Witness for C4: a fetch of the geotype "zzz" against a server
answering one opaque page succeeds, and the second call returns the
cached value with an empty request log. -/
theorem C4_list_objects_second_call_cached_witness :
    list_objects (fun _ _ => some [("GeoGeneration", .cell (.int 13))]) cfg500
        ((list_objects (fun _ _ => some [("GeoGeneration", .cell (.int 13))]) cfg500
          initState "zzz" 1).state) "zzz" 1 =
      { res := .ok (.res (.rawDict [("GeoGeneration", .cell (.int 13))])),
        state := (list_objects (fun _ _ => some [("GeoGeneration", .cell (.int 13))]) cfg500
          initState "zzz" 1).state,
        log := [] } :=
  C4_list_objects_second_call_cached
    (fun _ _ => some [("GeoGeneration", .cell (.int 13))]) cfg500 initState "zzz" 1
    (.res (.rawDict [("GeoGeneration", .cell (.int 13))])) rfl
    (fun _ _ => some [("GeoGeneration", .cell (.int 13))]) 1

/-- C9: a geotype string that names a pre-existing attribute of the
client makes `list_objects` return that attribute's current value with
no network request and no state change; in particular `"count"` yields
the integer 500 and `"export"` yields the bound method. -/
theorem C9_list_objects_attribute_shadowing :
    (∀ (s : ClientState) (g : String) (v : PyVal) (oracle : Oracle) (cfg : Config)
        (fuel : Nat), getattrV s g = some v →
        list_objects oracle cfg s g fuel = { res := .ok v, state := s, log := [] }) ∧
    (∀ (oracle : Oracle) (cfg : Config) (fuel : Nat),
        list_objects oracle cfg initState "count" fuel =
          { res := .ok (.natV 500), state := initState, log := [] }) ∧
    (∀ (oracle : Oracle) (cfg : Config) (fuel : Nat),
        list_objects oracle cfg initState "export" fuel =
          { res := .ok (.method "export"), state := initState, log := [] }) := by
  have hgen : ∀ (s : ClientState) (g : String) (v : PyVal) (oracle : Oracle)
      (cfg : Config) (fuel : Nat), getattrV s g = some v →
      list_objects oracle cfg s g fuel = { res := .ok v, state := s, log := [] } := by
    intro s g v oracle cfg fuel h
    unfold getattrV at h
    have hc : hasattrB s g = true := by simp [hasattrB, h]
    simp [list_objects, hc, getattrV, h]
  refine ⟨hgen, ?_, ?_⟩
  · intro oracle cfg fuel
    exact hgen initState "count" (.natV 500) oracle cfg fuel rfl
  · intro oracle cfg fuel
    exact hgen initState "export" (.method "export") oracle cfg fuel rfl

/-- Witness for C9 at the attribute `"count"`: its value on the fresh
client is the integer 500, and `list_objects` returns it with an empty
request log against a server that would fail every request. -/
theorem C9_list_objects_attribute_shadowing_witness :
    getattrV initState "count" = some (PyVal.natV 500) ∧
    list_objects (fun _ _ => none) cfg500 initState "count" 1 =
      { res := .ok (PyVal.natV 500), state := initState, log := [] } :=
  ⟨rfl, C9_list_objects_attribute_shadowing.1 initState "count" (PyVal.natV 500)
    (fun _ _ => none) cfg500 1 rfl⟩

/-- C6: when the fetch for an uncached geotype fails, `list_objects`
propagates the error and leaves the state unchanged — no cache entry is
created (first conjunct), a subsequent call performs the full fetch
again exactly as a first call would (second conjunct), and that
re-fetch's first page request is at offset 0 (third conjunct). -/
theorem C6_failed_fetch_leaves_state_unchanged
    (oracle : Oracle) (cfg : Config) (s : ClientState) (g : String) (fuel : Nat)
    (e : String) (log : List (List String × Nat))
    (hc : hasattrB s g = false)
    (hp : parse_request oracle cfg [getGeneration s, g] fuel = (.error e, log)) :
    list_objects oracle cfg s g fuel = { res := .error e, state := s, log := log } ∧
    (∀ (oracle2 : Oracle) (fuel2 : Nat),
      list_objects oracle2 cfg s g fuel2 =
        match parse_request oracle2 cfg [getGeneration s, g] fuel2 with
        | (.error e2, l2) => { res := .error e2, state := s, log := l2 }
        | (.ok pr, l2) =>
          { res := .ok (.res pr), state := setattrV s g (.res pr), log := l2 }) ∧
    (∀ (oracle2 : Oracle) (fuel2 : Nat),
      (list_objects oracle2 cfg s g (fuel2 + 1)).log.head? =
        some ([getGeneration s, g], 0)) := by
  refine ⟨?_, ?_, ?_⟩
  · simp [list_objects, hc, hp]
  · intro oracle2 fuel2
    simp [list_objects, hc]
  · intro oracle2 fuel2
    have hl := parse_request_log oracle2 cfg [getGeneration s, g] (fuel2 + 1)
    have hh := requestLoop_head oracle2 cfg [getGeneration s, g] fuel2 0 []
    rcases hp2 : parse_request oracle2 cfg [getGeneration s, g] (fuel2 + 1) with ⟨r1, l2⟩
    rw [hp2] at hl
    cases r1 with
    | error e2 =>
      simp only [list_objects, hc, Bool.false_eq_true, if_false, hp2]
      have hl2 : l2 = (requestLoop oracle2 cfg [getGeneration s, g] (fuel2 + 1) 0 []).2 := hl
      rw [hl2]
      exact hh
    | ok pr =>
      simp only [list_objects, hc, Bool.false_eq_true, if_false, hp2]
      have hl2 : l2 = (requestLoop oracle2 cfg [getGeneration s, g] (fuel2 + 1) 0 []).2 := hl
      rw [hl2]
      exact hh

/-- Witness for C6: the geotype "zzz" is uncached on a fresh client,
the fetch against a failing server propagates the assertion error, and
the state is returned unchanged. -/
theorem C6_failed_fetch_leaves_state_unchanged_witness :
    hasattrB initState "zzz" = false ∧
    list_objects (fun _ _ => none) cfg500 initState "zzz" 1 =
      { res := .error "AssertionError: An error has occured", state := initState,
        log := [(["13", "zzz"], 0)] } :=
  ⟨rfl, (C6_failed_fetch_leaves_state_unchanged (fun _ _ => none) cfg500 initState "zzz" 1
    "AssertionError: An error has occured" [(["13", "zzz"], 0)] rfl rfl).1⟩

/-- Every page request issued by the loop goes to the path it was
started with. -/
lemma requestLoop_paths (oracle : Oracle) (cfg : Config) (comps : List String) :
    ∀ (fuel offset : Nat) (acc : List Rec) (e : List String × Nat),
      e ∈ (requestLoop oracle cfg comps fuel offset acc).2 → e.1 = comps := by
  intro fuel
  induction fuel with
  | zero =>
    intro offset acc e he
    simp [requestLoop] at he
  | succ n ih =>
    intro offset acc e he
    cases ho : oracle comps offset with
    | none =>
      simp only [requestLoop, ho] at he
      simp at he
      simp [he]
    | some body =>
      cases hr : List.lookup "Result" body with
      | none =>
        cases hg : List.lookup "Geometry" body with
        | none =>
          simp only [requestLoop, ho, hr, hg] at he
          simp at he
          simp [he]
        | some x =>
          cases hb : bodyToRec body with
          | none =>
            simp only [requestLoop, ho, hr, hg, hb] at he
            simp at he
            simp [he]
          | some r =>
            simp only [requestLoop, ho, hr, hg, hb] at he
            simp at he
            simp [he]
      | some bv =>
        cases bv with
        | cell c =>
          simp only [requestLoop, ho, hr] at he
          simp at he
          simp [he]
        | recs rs =>
          cases hoff : getIntKey body "Offset" with
          | none =>
            simp only [requestLoop, ho, hr, hoff] at he
            simp at he
            simp [he]
          | some o =>
            cases hcnt : getIntKey body "Count" with
            | none =>
              simp only [requestLoop, ho, hr, hoff, hcnt] at he
              simp at he
              simp [he]
            | some c =>
              cases htot : getIntKey body "TotalCount" with
              | none =>
                simp only [requestLoop, ho, hr, hoff, hcnt, htot] at he
                simp at he
                simp [he]
              | some t =>
                by_cases hlt : o + c < t
                · simp only [requestLoop, ho, hr, hoff, hcnt, htot, if_pos hlt] at he
                  simp at he
                  rcases he with he | he
                  · simp [he]
                  · exact ih (offset + cfg.count) (acc ++ rs) e he
                · simp only [requestLoop, ho, hr, hoff, hcnt, htot, if_neg hlt] at he
                  simp at he
                  simp [he]

/-- A server whose single-object endpoint answers with a CONTINUING
paginated page (Offset 0 + Count 1 < TotalCount 2 on the first page, a
final page afterwards). -/
def pagedObjOracle : Oracle := fun _ offset =>
  if offset = 0 then
    some [("Result", BVal.recs [[("Id", Cell.int 7)]]),
          ("Offset", .cell (.int 0)), ("Count", .cell (.int 1)),
          ("TotalCount", .cell (.int 2))]
  else
    some [("Result", BVal.recs [[("Id", Cell.int 8)]]),
          ("Offset", .cell (.int 500)), ("Count", .cell (.int 1)),
          ("TotalCount", .cell (.int 2))]

/-- Counterexample to C7: against `pagedObjOracle`, a single
`get_object('bridge', 2123)` call issues TWO page requests (offsets 0
and 500), not exactly one — the response body's shape does determine
the number of requests, because `get_object` runs the same pagination
loop as a listing fetch. -/
theorem C7_counterexample :
    (get_object pagedObjOracle cfg500 initState "bridge" 2123 3).2 =
      [(["13", "bridge", "2123"], 0), (["13", "bridge", "2123"], 500)] ∧
    (get_object pagedObjOracle cfg500 initState "bridge" 2123 3).2.length ≠ 1 := by
  constructor
  · rfl
  · decide

/-- C7 (amended): every page request of `get_object` goes to
`{generation}/{geotype}/{objectid}` and every page request of
`get_object_subobjects` goes to
`{generation}/{geotype}/{objectid}/{geotype2}`; exactly one request is
issued whenever the first response is not a continuing paginated page —
a body without a `Result` key, or a final `Result` page with
`Offset + Count ≥ TotalCount`. A `Result` body reporting further
records makes the call paginate like any listing fetch. -/
theorem C7_object_request_paths
    (oracle : Oracle) (cfg : Config) (s : ClientState) (geotype : String)
    (objectid : Int) (geotype2 : String) (fuel : Nat) :
    (∀ e ∈ (get_object oracle cfg s geotype objectid fuel).2,
        e.1 = [getGeneration s, geotype, toString objectid]) ∧
    (∀ e ∈ (get_object_subobjects oracle cfg s geotype objectid geotype2 fuel).2,
        e.1 = [getGeneration s, geotype, toString objectid, geotype2]) ∧
    (∀ body, oracle [getGeneration s, geotype, toString objectid] 0 = some body →
        List.lookup "Result" body = none →
        (get_object oracle cfg s geotype objectid (fuel + 1)).2 =
          [([getGeneration s, geotype, toString objectid], 0)]) ∧
    (∀ (body : Body) (rs : List Rec) (o c t : Int),
        oracle [getGeneration s, geotype, toString objectid] 0 = some body →
        List.lookup "Result" body = some (.recs rs) →
        getIntKey body "Offset" = some o → getIntKey body "Count" = some c →
        getIntKey body "TotalCount" = some t → ¬ o + c < t →
        (get_object oracle cfg s geotype objectid (fuel + 1)).2 =
          [([getGeneration s, geotype, toString objectid], 0)]) ∧
    (∀ body, oracle [getGeneration s, geotype, toString objectid, geotype2] 0 = some body →
        List.lookup "Result" body = none →
        (get_object_subobjects oracle cfg s geotype objectid geotype2 (fuel + 1)).2 =
          [([getGeneration s, geotype, toString objectid, geotype2], 0)]) ∧
    (∀ (body : Body) (rs : List Rec) (o c t : Int),
        oracle [getGeneration s, geotype, toString objectid, geotype2] 0 = some body →
        List.lookup "Result" body = some (.recs rs) →
        getIntKey body "Offset" = some o → getIntKey body "Count" = some c →
        getIntKey body "TotalCount" = some t → ¬ o + c < t →
        (get_object_subobjects oracle cfg s geotype objectid geotype2 (fuel + 1)).2 =
          [([getGeneration s, geotype, toString objectid, geotype2], 0)]) := by
  refine ⟨?_, ?_, ?_, ?_, ?_, ?_⟩
  · intro e he
    unfold get_object at he
    rw [parse_request_log] at he
    exact requestLoop_paths oracle cfg _ fuel 0 [] e he
  · intro e he
    unfold get_object_subobjects at he
    rw [parse_request_log] at he
    exact requestLoop_paths oracle cfg _ fuel 0 [] e he
  · intro body h1 h2
    unfold get_object
    rw [parse_request_log]
    simp only [requestLoop, h1, h2]
    cases hg : List.lookup "Geometry" body with
    | none => simp [hg]
    | some x =>
      cases hb : bodyToRec body with
      | none => simp [hg, hb]
      | some r => simp [hg, hb]
  · intro body rs o c t h1 h2 h3 h4 h5 hge
    unfold get_object
    rw [parse_request_log]
    simp only [requestLoop, h1, h2, h3, h4, h5, if_neg hge]
  · intro body h1 h2
    unfold get_object_subobjects
    rw [parse_request_log]
    simp only [requestLoop, h1, h2]
    cases hg : List.lookup "Geometry" body with
    | none => simp [hg]
    | some x =>
      cases hb : bodyToRec body with
      | none => simp [hg, hb]
      | some r => simp [hg, hb]
  · intro body rs o c t h1 h2 h3 h4 h5 hge
    unfold get_object_subobjects
    rw [parse_request_log]
    simp only [requestLoop, h1, h2, h3, h4, h5, if_neg hge]

/-- Witness for C7 (amended): against a server answering an opaque
single-page body, `get_object('bridge', 2123)` and
`get_object_subobjects('bridge', 2123, 'opening')` each issue exactly
the one request at offset 0. -/
theorem C7_object_request_paths_witness :
    (get_object (fun _ _ => some [("Name", .cell (.str "X"))]) cfg500 initState
        "bridge" 2123 1).2 =
      [(["13", "bridge", "2123"], 0)] ∧
    (get_object_subobjects (fun _ _ => some [("Name", .cell (.str "X"))]) cfg500
        initState "bridge" 2123 "opening" 1).2 =
      [(["13", "bridge", "2123", "opening"], 0)] :=
  ⟨(C7_object_request_paths (fun _ _ => some [("Name", .cell (.str "X"))]) cfg500
      initState "bridge" 2123 "opening" 0).2.2.1
      [("Name", .cell (.str "X"))] rfl rfl,
   (C7_object_request_paths (fun _ _ => some [("Name", .cell (.str "X"))]) cfg500
      initState "bridge" 2123 "opening" 0).2.2.2.2.1
      [("Name", .cell (.str "X"))] rfl rfl⟩

/-- A configuration with an export coordinate system set
(`self.export_coordinate_system = 'epsg:28992'`). -/
def cfgExp : Config := ⟨500, "epsg:4326", some "epsg:28992"⟩

/-- A server answering every request with one single-object body
carrying a WKT geometry. -/
def geomOracle : Oracle := fun _ _ =>
  some [("Id", .cell (.int 1)), ("Geometry", .cell (.str "POINT (5 52)"))]

set_option maxRecDepth 10000 in
/-- C3, evaluated at the failing input: with an export coordinate
system configured, the returned collection's geometry is the PARSED
but UNREPROJECTED `Cell.geom "POINT (5 52)"` with the frame still in
the service system `epsg:4326` (first conjunct) — because line 150 of
the source discards the frame `to_crs` returns; the discarded frame
(second conjunct) is the one whose geometries are reprojected to
`epsg:28992`, which is what the claim requires the call to return. -/
theorem C3_to_crs_result_discarded :
    parse_request geomOracle cfgExp ["13", "bridge", "2123"] 1 =
      (.ok (.frame { rows := [[("Id", Cell.int 1), ("geometry", Cell.geom "POINT (5 52)")]],
                     crs := some "epsg:4326" }),
       [(["13", "bridge", "2123"], 0)]) ∧
    GeoDF.to_crs { rows := [[("Id", Cell.int 1), ("geometry", Cell.geom "POINT (5 52)")]],
                   crs := some "epsg:4326" } "epsg:28992" =
      { rows := [[("Id", Cell.int 1),
                  ("geometry", Cell.geomProj "epsg:4326" "epsg:28992" "POINT (5 52)")]],
        crs := some "epsg:28992" } := by
  constructor
  · rfl
  · rfl

/-- The serialised collection contents used in the export fixtures. -/
def dataFix : String → String := fun g => "data-" ++ g

set_option maxRecDepth 10000 in
/-- C1, evaluated at the failing input: an export with `force=False`
against an existing destination does NOT fail — line 241 constructs a
`FileExistsError` without raising it — and for a spreadsheet filetype
the call then OVERWRITES the existing destination file
("old-contents" is replaced by the freshly written workbook). -/
theorem C1_force_false_reaches_write :
    exportAll ["bridge"] dataFix ⟨"backup", "xlsx"⟩ none false none
        [("backup.xlsx", "old-contents")] =
      ([("backup.xlsx", "bridge=data-bridge")],
       [Event.constructExc "FileExistsError", Event.fetchGeotypes,
        Event.loadObjects "bridge", Event.writeSheet "bridge",
        Event.saveExcel "backup.xlsx"]) := by
  rfl

set_option maxRecDepth 10000 in
/-- C5, evaluated at the failing input: an export with the
unrecognised filetype `txt` returns normally — line 268 constructs a
`NotImplementedError` without raising it — after logging an error;
nothing is written. -/
theorem C5_unrecognised_filetype_returns_normally :
    exportAll ["bridge"] dataFix ⟨"backup", "txt"⟩ none true none [] =
      ([], [Event.fetchGeotypes, Event.logErr "Unrecognised filetype: txt",
            Event.constructExc "NotImplementedError"]) := by
  rfl

/-- C10: with `force=True` (the default) and an existing destination,
the very first effect of `export` is unlinking the destination — it
precedes the geotype-catalog fetch, every per-geotype data load and
every write (first conjunct); and for an unrecognised filetype the
final filesystem is exactly the input filesystem with the destination
removed, with no write event in the trace (second conjunct). -/
theorem C10_force_unlinks_before_any_fetch_or_write
    (catalog : List String) (data : String → String) (p : FPath)
    (filetype : Option String) (gts : Option (List String)) (fs : FS)
    (hex : fsExists fs p.full = true) :
    ((exportAll catalog data p filetype true gts fs).2.head? =
      some (Event.unlink p.full)) ∧
    (∀ ftv : String, ftv ∉ (["xlsx", "xls", "csv"] : List String) → ftv ≠ "" →
      (exportAll catalog data p (some ftv) true gts fs).1 = fsUnlink fs p.full ∧
      (exportAll catalog data p (some ftv) true gts fs).2.filter isWriteEvent = []) := by
  have he1 : prePhaseEvents fs p.full true = [Event.unlink p.full] := by
    simp [prePhaseEvents, hex]
  have hf1 : prePhaseFS fs p.full true = fsUnlink fs p.full := by
    simp [prePhaseFS, hex]
  constructor
  · simp only [exportAll, he1, hf1]
    split
    · rfl
    · split
      · rfl
      · rfl
  · intro ftv h1 h2
    have h1' : ¬(ftv = "xlsx" ∨ ftv = "xls" ∨ ftv = "csv") := by simpa using h1
    have hr : resolveFiletype p (some ftv) = ftv := by simp [resolveFiletype, h2]
    have hx : ¬(ftv = "xlsx" ∨ ftv = "xls") := by tauto
    have hc : ¬ ftv = "csv" := by tauto
    simp only [exportAll, hr, he1, hf1, if_neg hx, if_neg hc]
    constructor
    · trivial
    · cases gts with
      | none => rfl
      | some l => rfl

/-- Witness for C10: a destination `b.txt` that exists beforehand is
unlinked as the first effect of the export call. -/
theorem C10_force_unlinks_witness :
    fsExists [("b.txt", "x")] "b.txt" = true ∧
    (exportAll [] dataFix ⟨"b", "txt"⟩ none true none [("b.txt", "x")]).2.head? =
      some (Event.unlink "b.txt") :=
  ⟨rfl, (C10_force_unlinks_before_any_fetch_or_write [] dataFix ⟨"b", "txt"⟩ none none
    [("b.txt", "x")] rfl).1⟩

/-- The empty suffix leaves a column name unchanged. -/
lemma suffixName_empty (cols : List String) (c : String) :
    suffixName cols "" c = c := by
  unfold suffixName
  by_cases hc : cols.contains c <;> simp [hc, String.append_empty]

/-- The empty suffix leaves a record unchanged. -/
lemma renameRow_empty (cols : List String) (r : Rec) :
    renameRow cols "" r = r := by
  unfold renameRow
  have h : ∀ kv : String × Cell, (suffixName cols "" kv.1, kv.2) = kv := by
    intro kv
    rw [suffixName_empty]
  simp [h]

/-- Every row of a merge with left suffix `''` is a left row
(unsuffixed) followed by a right row renamed with the right suffix. -/
lemma pdMerge_rows_mem (dfL dfR : GeoDF) (lOn rOn : List String) (sr : String)
    (r : Rec) (hr : r ∈ (pdMerge dfL dfR lOn rOn "" sr).rows) :
    ∃ rl ∈ dfL.rows, ∃ rr ∈ dfR.rows, r = rl ++ renameRow dfL.cols sr rr := by
  simp only [pdMerge, List.mem_flatMap] at hr
  obtain ⟨rl, hrl, hr2⟩ := hr
  simp only [List.mem_filterMap] at hr2
  obtain ⟨rr, hrr, hopt⟩ := hr2
  refine ⟨rl, hrl, rr, hrr, ?_⟩
  rcases hk : rowKey lOn rl with _ | kl
  · simp only [hk] at hopt
    exact absurd hopt (by simp)
  · rcases hk2 : rowKey rOn rr with _ | kr
    · simp only [hk, hk2] at hopt
      exact absurd hopt (by simp)
    · simp only [hk, hk2] at hopt
      by_cases heq : kl = kr
      · rw [if_pos heq] at hopt
        rw [← Option.some.inj hopt, renameRow_empty]
      · rw [if_neg heq] at hopt
        exact absurd hopt (by simp)

/-- C8: with no join keys supplied, `merge_geotypes` joins on
`(GeoType, Id)` against `(ParentGeoType, ParentId)` when the right
collection has a `ParentGeoType` column and on `(Id)` against
`(ParentId)` otherwise (first two conjuncts), the merge suffixes being
`('', '_' + right_geotype)`; every joined row is a left row with its
names unsuffixed followed by the right row with exactly its
overlapping names suffixed: an overlapping right name receives
`_{right_geotype}` and a non-overlapping one is unchanged (last three
conjuncts). -/
theorem C8_merge_geotypes_key_inference (df_l df_r : GeoDF) (rg : String) :
    (df_r.cols.contains "ParentGeoType" = true →
      merge_geotypes df_l df_r rg none none =
        pdMerge df_l df_r ["GeoType", "Id"] ["ParentGeoType", "ParentId"] "" ("_" ++ rg)) ∧
    (df_r.cols.contains "ParentGeoType" = false →
      merge_geotypes df_l df_r rg none none =
        pdMerge df_l df_r ["Id"] ["ParentId"] "" ("_" ++ rg)) ∧
    (∀ r ∈ (merge_geotypes df_l df_r rg none none).rows,
      ∃ rl ∈ df_l.rows, ∃ rr ∈ df_r.rows,
        r = rl ++ renameRow df_l.cols ("_" ++ rg) rr) ∧
    (∀ c : String, df_l.cols.contains c = true →
      suffixName df_l.cols ("_" ++ rg) c = c ++ ("_" ++ rg)) ∧
    (∀ c : String, df_l.cols.contains c = false →
      suffixName df_l.cols ("_" ++ rg) c = c) := by
  have h1 : df_r.cols.contains "ParentGeoType" = true →
      merge_geotypes df_l df_r rg none none =
        pdMerge df_l df_r ["GeoType", "Id"] ["ParentGeoType", "ParentId"] "" ("_" ++ rg) := by
    intro hc
    have hm : "ParentGeoType" ∈ df_r.cols := by simpa using hc
    simp [merge_geotypes, falsyKeys, hm]
  have h2 : df_r.cols.contains "ParentGeoType" = false →
      merge_geotypes df_l df_r rg none none =
        pdMerge df_l df_r ["Id"] ["ParentId"] "" ("_" ++ rg) := by
    intro hc
    have hm : "ParentGeoType" ∉ df_r.cols := by simpa using hc
    simp [merge_geotypes, falsyKeys, hm]
  refine ⟨h1, h2, ?_, ?_, ?_⟩
  · intro r hr
    cases hcp : df_r.cols.contains "ParentGeoType" with
    | false =>
      rw [h2 hcp] at hr
      exact pdMerge_rows_mem df_l df_r _ _ _ r hr
    | true =>
      rw [h1 hcp] at hr
      exact pdMerge_rows_mem df_l df_r _ _ _ r hr
  · intro c hc
    have hm : c ∈ df_l.cols := by simpa using hc
    simp [suffixName, hm]
  · intro c hc
    have hm : c ∉ df_l.cols := by simpa using hc
    simp [suffixName, hm]

/-- A one-bridge left collection. -/
def dfL8 : GeoDF :=
  ⟨[[("GeoType", .str "bridge"), ("Id", .int 1), ("Name", .str "A")]], none⟩

/-- A one-opening right collection declaring its parent geotype. -/
def dfR8 : GeoDF :=
  ⟨[[("ParentGeoType", .str "bridge"), ("ParentId", .int 1),
     ("Id", .int 9), ("Name", .str "O1")]], none⟩

/-- Witness for C8: the right fixture has a `ParentGeoType` column, so
the inferred keys are `(GeoType, Id)` against
`(ParentGeoType, ParentId)`; the overlapping right column `Name` is
suffixed `_opening` and the non-overlapping `ParentId` stays. -/
theorem C8_merge_geotypes_key_inference_witness :
    merge_geotypes dfL8 dfR8 "opening" none none =
      pdMerge dfL8 dfR8 ["GeoType", "Id"] ["ParentGeoType", "ParentId"] ""
        ("_" ++ "opening") ∧
    suffixName dfL8.cols ("_" ++ "opening") "Name" = "Name" ++ ("_" ++ "opening") ∧
    suffixName dfL8.cols ("_" ++ "opening") "ParentId" = "ParentId" :=
  ⟨(C8_merge_geotypes_key_inference dfL8 dfR8 "opening").1 rfl,
   (C8_merge_geotypes_key_inference dfL8 dfR8 "opening").2.2.2.1 "Name" rfl,
   (C8_merge_geotypes_key_inference dfL8 dfR8 "opening").2.2.2.2 "ParentId" rfl⟩

end PyFIS
